import Mathlib

/-!
Verification of the MTP server JNI binding
(`media/jni/android_media_MtpServer.cpp`).

The file under study is a lifecycle manager: a controller-side slot
(`mNativeContext`) holds a pointer to a heap-allocated `MtpThread`; the
thread's `threadLoop` opens the device node, runs an `MtpServer`, and on
return checks the `mDone` flag; `setup`/`start`/`stop` are the JNI entry
points.  We embed each function as a pure Lean function that returns its
new state together with a trace of the externally visible actions it
performs (device opens, server construction, handle release, field
writes).  Logging calls are omitted: they touch no state of this layer.
-/

namespace MtpServerJNI

/-- The group id constant `AID_SDCARD_RW` from
`private/android_filesystem_config.h` (the sdcard_rw group).  Its exact
numeric value is irrelevant to every property below; what matters is that
it is a fixed constant, not derived from any input. -/
def AID_SDCARD_RW : Nat := 1015

/-- State of a heap-allocated `MtpThread` object: the fields set by the
constructor (lines 57-60).  `mDone` is the completion flag. -/
structure MtpThread where
  mDatabase : Nat
  mStoragePath : String
  mDone : Bool
deriving DecidableEq, Repr

/-- The `MtpThread` constructor (lines 57-60): captures the database
pointer and the storage path and clears `mDone`. -/
def MtpThread.init (database : Nat) (storagePath : String) : MtpThread :=
  { mDatabase := database, mStoragePath := storagePath, mDone := false }

/-- Externally visible actions of the binding layer.  `joinWorker` is the
blocking wait primitive of the threading library
(`Thread::requestExitAndWait`); it appears in the vocabulary so that its
absence from a trace can be stated, but no function in this file ever
emits it, matching the source, which never joins the worker. -/
inductive Event where
  | openDev (result : Int)
  | constructServer (args : List Int)
  | addStorage (path : String)
  | runServer
  | closeDev (fd : Int)
  | destroyServer
  | releaseHandle
  | allocThread (database : Nat) (path : String)
  | writeContext (slot : Option MtpThread)
  | setDoneFlag
  | launchWorker
  | joinWorker
deriving DecidableEq, Repr

/-- The argument list of the call
`new MtpServer(fd, mDatabase, AID_SDCARD_RW, 0664, 0775)` (line 70):
five arguments — device fd, database pointer, one fixed group identity,
fixed file mode bits, fixed directory mode bits.  The database pointer is
encoded by its numeric identity. -/
def serverCtorArgs (fd : Int) (database : Nat) : List Int :=
  [fd, (database : Int), (AID_SDCARD_RW : Int), 0o664, 0o775]

/-- Result of one invocation of `MtpThread::threadLoop`: the trace of
actions it performed and the boolean it returned.  In the `Thread`
framework the return value `true` requests another invocation of the
loop body; `false` ends the loop. -/
structure LoopOutcome where
  trace : List Event
  ret : Bool
deriving DecidableEq, Repr

/-- One invocation of `MtpThread::threadLoop` (lines 62-84).  `fd` is the
result of `open("/dev/mtp_usb", O_RDWR)`.  `t` is the state of the
`MtpThread` object as of the single read of `mDone` at line 79 (`mDone`
is the only mutable field, and this is the only place the loop reads it,
so a concurrent `stop` is modelled by the value of `t.mDone` here).
  - fd < 0 (line 65): log and `return false` — nothing else happens.
  - otherwise: construct the server, add the storage, run, close the fd,
    delete the server, read `mDone`; if set, `delete this`
    (`releaseHandle`); return `!done` (line 83). -/
def threadLoop (t : MtpThread) (fd : Int) : LoopOutcome :=
  if fd < 0 then
    { trace := [Event.openDev fd], ret := false }
  else
    { trace := [Event.openDev fd,
                Event.constructServer (serverCtorArgs fd t.mDatabase),
                Event.addStorage t.mStoragePath,
                Event.runServer,
                Event.closeDev fd,
                Event.destroyServer] ++
               (if t.mDone then [Event.releaseHandle] else []),
      ret := !t.mDone }

/-- Controller-side state: the `mNativeContext` integer field of the Java
object, holding either a pointer to the `MtpThread` (`some`) or 0
(`none`). -/
structure Controller where
  mNativeContext : Option MtpThread
deriving DecidableEq, Repr

/-- A controller whose `mNativeContext` field has never been written:
the Java int field's initial value 0. -/
def Controller.fresh : Controller := { mNativeContext := none }

/-- `android_media_MtpServer_setup` (lines 89-101): allocates a new
`MtpThread` capturing the database and the path and stores the pointer
in `mNativeContext`.  It is total — the source has no failure branch —
and its trace records exactly the allocation and the field write. -/
def setup (database : Nat) (path : String) : Controller × List Event :=
  ({ mNativeContext := some (MtpThread.init database path) },
   [Event.allocThread database path,
    Event.writeContext (some (MtpThread.init database path))])

/-- Outcome of `android_media_MtpServer_start`: either the worker was
launched, or the stored pointer was 0 and `thread->run(...)` dereferenced
a null pointer (undefined behaviour). -/
inductive StartResult where
  | ok (trace : List Event)
  | nullDeref
deriving DecidableEq, Repr

/-- `android_media_MtpServer_start` (lines 110-116): reads
`mNativeContext` and calls `thread->run("MtpThread")` on it with no
validity check.  The case split below is not a branch of the source —
the source has none — it is the semantics of dereferencing whatever the
slot holds: a null slot means a null-pointer dereference. -/
def start (c : Controller) : StartResult :=
  match c.mNativeContext with
  | none => StartResult.nullDeref
  | some _ => StartResult.ok [Event.launchWorker]

/-- `android_media_MtpServer_stop` (lines 118-127): reads
`mNativeContext`; if non-null, calls `setDone()` on the thread and
writes 0 to the field; otherwise does nothing.  Returns the new
controller state, the new state of the heap-allocated thread object as
the worker will observe it (`none` when no thread was stored), and the
trace. -/
def stop (c : Controller) : Controller × Option MtpThread × List Event :=
  match c.mNativeContext with
  | some t =>
      ({ mNativeContext := none }, some { t with mDone := true },
       [Event.setDoneFlag, Event.writeContext none])
  | none => (c, none, [])

/-- Whole-system state for one handle: whether the controller's slot
still points at the handle, and the handle's heap allocation (`none`
once the worker has executed `delete this`). -/
structure Sys where
  slotValid : Bool
  handle : Option MtpThread
deriving DecidableEq, Repr

/-- System state right after `setup`: slot points at a fresh handle with
the completion flag cleared. -/
def Sys.afterSetup (database : Nat) (path : String) : Sys :=
  { slotValid := true, handle := some (MtpThread.init database path) }

/-- The operations that can act on one handle after its `setup`. -/
inductive Op where
  | start
  | stop
  | workerIter (fd : Int)
deriving DecidableEq, Repr

/-- Effect of one operation on the system state.
  - `start`: launches the worker; writes neither the flag nor the slot.
  - `stop`: if the slot is valid, sets `mDone` on the handle and clears
    the slot (lines 122-126); otherwise a no-op.
  - `workerIter fd`: one `threadLoop` invocation; it frees the handle
    (`delete this`, line 81) exactly when the open succeeded and the
    flag was observed set; it never writes the flag. -/
def stepOp (s : Sys) : Op → Sys
  | Op.start => s
  | Op.stop =>
      if s.slotValid then
        { slotValid := false,
          handle := s.handle.map (fun t => { t with mDone := true }) }
      else s
  | Op.workerIter fd =>
      match s.handle with
      | none => s
      | some t =>
          if 0 ≤ fd ∧ t.mDone = true then { s with handle := none } else s

/-- Run a sequence of post-`setup` operations. -/
def runOps (s : Sys) (ops : List Op) : Sys := ops.foldl stepOp s

/-- Helper predicate: if the handle is still allocated, its completion
flag is set. -/
def flagSet (s : Sys) : Prop := ∀ t, s.handle = some t → t.mDone = true

/-- A sample handle with the completion flag set, used to instantiate
theorems at concrete inputs. -/
def sampleDone : MtpThread := { mDatabase := 0, mStoragePath := "p", mDone := true }

/-- A sample system state right after setup, with the slot still valid. -/
def sampleRunning : Sys := { slotValid := true, handle := some (MtpThread.init 0 "p") }

/-- A sample controller holding a freshly set-up thread. -/
def sampleCtl : Controller := { mNativeContext := some (MtpThread.init 0 "p") }

lemma flagSet_step (s : Sys) (op : Op) (h : flagSet s) : flagSet (stepOp s op) := by
  obtain ⟨v, hd⟩ := s
  cases op with
  | start => exact h
  | stop =>
      cases v with
      | false => exact h
      | true =>
          cases hd with
          | none => intro t' ht'; simp [stepOp] at ht'
          | some u =>
              intro t' ht'
              simp [stepOp] at ht'
              simp [← ht']
  | workerIter fd =>
      cases hd with
      | none => exact h
      | some u =>
          by_cases hc : 0 ≤ fd ∧ u.mDone = true
          · intro t' ht'
            simp [stepOp, hc] at ht'
          · intro t' ht'
            simp [stepOp, hc] at ht'
            exact ht' ▸ h u rfl

lemma flagSet_runOps (s : Sys) (ops : List Op) (h : flagSet s) :
    flagSet (runOps s ops) := by
  induction ops generalizing s with
  | nil => exact h
  | cons op rest ih => exact ih (stepOp s op) (flagSet_step s op h)

/-- C1: in a loop iteration where the device open fails (`fd < 0`,
line 65), `threadLoop` constructs no protocol-server instance, its trace
is just the failed open (it returns immediately, doing nothing else),
and it returns `false`, so the iteration is not retried automatically. -/
theorem C1_open_failure_no_server (t : MtpThread) (fd : Int) (h : fd < 0) :
    (threadLoop t fd).trace = [Event.openDev fd] ∧
    (∀ args, Event.constructServer args ∉ (threadLoop t fd).trace) ∧
    (threadLoop t fd).ret = false := by
  refine ⟨?_, ?_, ?_⟩ <;> simp [threadLoop, h]

/-- C1 witness: a concrete failed open (fd = -1). -/
theorem C1_witness :
    (-1 : Int) < 0 ∧ (threadLoop (MtpThread.init 0 "p") (-1)).ret = false :=
  ⟨by decide, (C1_open_failure_no_server (MtpThread.init 0 "p") (-1) (by decide)).2.2⟩

/-- C2 counterexample: the claim says an open failure makes `threadLoop`
return the value that requests rescheduling.  The rescheduling value is
`true` (the value returned when a run completes with the flag clear,
line 83); on open failure the loop body returns `false` (line 67), not
`true`, so the claim is false at fd = -1. -/
theorem C2_counterexample :
    ¬ (threadLoop (MtpThread.init 0 "p") (-1)).ret = true ∧
    (threadLoop (MtpThread.init 0 "p") (-1)).ret = false ∧
    (threadLoop (MtpThread.init 0 "p") 3).ret = true := by
  refine ⟨by decide, by decide, by decide⟩

/-- C2 amended: in every loop iteration where the device open fails, the
loop body returns `false`, the value that prevents rescheduling, so the
worker is not re-invoked after an open failure. -/
theorem C2_amended_no_reschedule (t : MtpThread) (fd : Int) (h : fd < 0) :
    (threadLoop t fd).ret = false := by
  simp [threadLoop, h]

/-- C2 witness: the amended claim at fd = -1. -/
theorem C2_witness :
    (-1 : Int) < 0 ∧ (threadLoop (MtpThread.init 1 "q") (-1)).ret = false :=
  ⟨by decide, C2_amended_no_reschedule (MtpThread.init 1 "q") (-1) (by decide)⟩

/-- C3: in every loop iteration that completes the protocol-server run
(open succeeded, server run, device closed, server destroyed), the
worker then checks the completion flag: if set, it releases the handle
(`delete this`) and returns `false` (do not reschedule); if clear, it
returns `true` (eligible for another iteration) without releasing the
handle. -/
theorem C3_completion_flag_check (t : MtpThread) (fd : Int) (h : 0 ≤ fd) :
    Event.runServer ∈ (threadLoop t fd).trace ∧
    Event.closeDev fd ∈ (threadLoop t fd).trace ∧
    Event.destroyServer ∈ (threadLoop t fd).trace ∧
    (t.mDone = true →
      Event.releaseHandle ∈ (threadLoop t fd).trace ∧
      (threadLoop t fd).ret = false) ∧
    (t.mDone = false →
      Event.releaseHandle ∉ (threadLoop t fd).trace ∧
      (threadLoop t fd).ret = true) := by
  have hfd : ¬ fd < 0 := not_lt.2 h
  refine ⟨?_, ?_, ?_, ?_, ?_⟩
  · simp [threadLoop, hfd]
  · simp [threadLoop, hfd]
  · simp [threadLoop, hfd]
  · intro hd; constructor <;> simp [threadLoop, hfd, hd]
  · intro hd; constructor <;> simp [threadLoop, hfd, hd]

/-- C3 witness: a completed run with the flag set (fd = 2). -/
theorem C3_witness :
    (0 : Int) ≤ 2 ∧ sampleDone.mDone = true ∧
    (Event.releaseHandle ∈ (threadLoop sampleDone 2).trace ∧
     (threadLoop sampleDone 2).ret = false) :=
  ⟨by decide, by decide,
   (C3_completion_flag_check sampleDone 2 (by decide)).2.2.2.1 (by decide)⟩

/-- C4: the completion flag is monotone across any sequence of
post-setup operations on one handle: it is cleared by the constructor at
setup; any single operation either leaves it unchanged or sets it to
`true` (only `stop` writes it, and only to `true`); and once set it is
never cleared for as long as the handle stays allocated, over any
operation sequence. -/
theorem C4_flag_monotone :
    (∀ database path t,
        (Sys.afterSetup database path).handle = some t → t.mDone = false) ∧
    (∀ s op t t', s.handle = some t → (stepOp s op).handle = some t' →
        (t.mDone = true → t'.mDone = true) ∧
        (¬ t'.mDone = t.mDone → t'.mDone = true)) ∧
    (∀ s ops t t', s.handle = some t → t.mDone = true →
        (runOps s ops).handle = some t' → t'.mDone = true) := by
  refine ⟨?_, ?_, ?_⟩
  · intro database path t ht
    have h : MtpThread.init database path = t := by
      simpa [Sys.afterSetup] using ht
    subst h
    rfl
  · intro s op t t' ht ht'
    obtain ⟨v, hd⟩ := s
    cases hd with
    | none => simp at ht
    | some u =>
        have hu : u = t := by simpa using ht
        subst hu
        cases op with
        | start =>
            have h2 : u = t' := by simpa [stepOp] using ht'
            subst h2
            exact ⟨fun h => h, fun h => absurd rfl h⟩
        | stop =>
            cases v with
            | false =>
                have h2 : u = t' := by simpa [stepOp] using ht'
                subst h2
                exact ⟨fun h => h, fun h => absurd rfl h⟩
            | true =>
                have h2 : { u with mDone := true } = t' := by
                  simpa [stepOp] using ht'
                constructor
                · intro _; simp [← h2]
                · intro _; simp [← h2]
        | workerIter fd =>
            by_cases hc : 0 ≤ fd ∧ u.mDone = true
            · simp [stepOp, hc] at ht'
            · have h2 : u = t' := by simpa [stepOp, hc] using ht'
              subst h2
              exact ⟨fun h => h, fun h => absurd rfl h⟩
  · intro s ops t t' ht hdone ht'
    have hfs : flagSet s := by
      intro u hu
      have : t = u := by
        have := ht.symm.trans hu
        exact Option.some.inj this
      exact this ▸ hdone
    exact flagSet_runOps s ops hfs t' ht'

/-- C4 witness: `stop` on a running system sets the flag; the step
property instantiated there. -/
theorem C4_witness :
    ((MtpThread.init 0 "p").mDone = true → sampleDone.mDone = true) ∧
    (¬ sampleDone.mDone = (MtpThread.init 0 "p").mDone →
      sampleDone.mDone = true) :=
  C4_flag_monotone.2.1 sampleRunning Op.stop (MtpThread.init 0 "p") sampleDone
    rfl (by decide)

/-- C5: `stop` on a controller whose slot holds a thread sets the
thread's completion flag, clears the slot to 0, and does nothing else:
its result is exactly that state change and that two-event trace, and in
particular the trace contains no blocking join of the worker. -/
theorem C5_stop_effects (c : Controller) (t : MtpThread)
    (h : c.mNativeContext = some t) :
    stop c = ({ mNativeContext := none }, some { t with mDone := true },
              [Event.setDoneFlag, Event.writeContext none]) ∧
    Event.joinWorker ∉ (stop c).2.2 := by
  constructor
  · simp [stop, h]
  · simp [stop, h]

/-- C5 witness: `stop` on a controller holding a fresh thread. -/
theorem C5_witness :
    stop sampleCtl = ({ mNativeContext := none }, some sampleDone,
                      [Event.setDoneFlag, Event.writeContext none]) ∧
    Event.joinWorker ∉ (stop sampleCtl).2.2 :=
  C5_stop_effects sampleCtl (MtpThread.init 0 "p") rfl

/-- C6: `stop` on a controller whose slot is 0 (never set up, or cleared
by a previous `stop`) is a no-op guarded by the null check at line 123:
state and thread are untouched and the trace is empty; in particular
`stop` before any `setup` is a no-op, and a second `stop` after it sees
the same (unchanged) state and is again a no-op. -/
theorem C6_stop_noop_on_null (c : Controller) (h : c.mNativeContext = none) :
    stop c = (c, none, []) ∧
    stop Controller.fresh = (Controller.fresh, none, []) ∧
    stop (stop Controller.fresh).1 = ((stop Controller.fresh).1, none, []) := by
  refine ⟨?_, rfl, rfl⟩
  simp [stop, h]

/-- C6 witness: `stop` on the fresh controller. -/
theorem C6_witness :
    Controller.fresh.mNativeContext = none ∧
    stop Controller.fresh = (Controller.fresh, none, []) :=
  ⟨rfl, (C6_stop_noop_on_null Controller.fresh rfl).1⟩

/-- C7: `setup` only allocates a handle capturing the database and path
with the completion flag cleared and stores it in the slot; its trace
contains no device open and no worker launch.  It is a total function:
the source has no failure branch. -/
theorem C7_setup_pure_construction (database : Nat) (path : String) :
    (setup database path).1.mNativeContext =
      some (MtpThread.init database path) ∧
    (MtpThread.init database path).mDone = false ∧
    (MtpThread.init database path).mDatabase = database ∧
    (MtpThread.init database path).mStoragePath = path ∧
    (∀ r, Event.openDev r ∉ (setup database path).2) ∧
    Event.launchWorker ∉ (setup database path).2 := by
  refine ⟨rfl, rfl, rfl, rfl, ?_, ?_⟩ <;> simp [setup]

/-- C8 counterexample: the claim says the server is constructed with six
parameters including a separate fixed uid and fixed gid.  The call at
line 70 passes five arguments — fd, database, one fixed owner/group
identity, file mode, directory mode — so at fd = 3, database = 7 the
argument list has length 5, not 6. -/
theorem C8_counterexample :
    Event.constructServer (serverCtorArgs 3 7) ∈
      (threadLoop (MtpThread.init 7 "p") 3).trace ∧
    (serverCtorArgs 3 7).length = 5 ∧
    ¬ (serverCtorArgs 3 7).length = 6 := by
  refine ⟨by decide, by decide, by decide⟩

/-- C8 amended: in every iteration where the open succeeds, the server
is constructed with exactly five parameters — the opened device fd, the
database reference, a single fixed owner/group identity
(`AID_SDCARD_RW`), a fixed file mode (0664) and a fixed directory mode
(0775) — and the last three are policy constants independent of every
input. -/
theorem C8_amended_ctor_five_args (t : MtpThread) (fd : Int) (h : 0 ≤ fd) :
    Event.constructServer (serverCtorArgs fd t.mDatabase) ∈
      (threadLoop t fd).trace ∧
    serverCtorArgs fd t.mDatabase =
      [fd, (t.mDatabase : Int), (AID_SDCARD_RW : Int), 0o664, 0o775] ∧
    (serverCtorArgs fd t.mDatabase).length = 5 ∧
    (serverCtorArgs fd t.mDatabase).drop 2 =
      [(AID_SDCARD_RW : Int), 0o664, 0o775] := by
  have hfd : ¬ fd < 0 := not_lt.2 h
  refine ⟨?_, rfl, rfl, rfl⟩
  simp [threadLoop, hfd]

/-- C8 witness: the amended claim at fd = 3. -/
theorem C8_witness :
    (0 : Int) ≤ 3 ∧ (serverCtorArgs 3 (MtpThread.init 7 "p").mDatabase).length = 5 :=
  ⟨by decide, (C8_amended_ctor_five_args (MtpThread.init 7 "p") 3 (by decide)).2.2.1⟩

/-- C9: `start` has no validity check on the slot, unlike `stop`: when
the slot is 0 it dereferences the null pointer (undefined behaviour),
and it launches the worker exactly when the slot holds a thread — so its
safety precondition is a set-up, not-yet-stopped slot. -/
theorem C9_start_unchecked (c : Controller) :
    (c.mNativeContext = none → start c = StartResult.nullDeref) ∧
    (∀ t, c.mNativeContext = some t →
       start c = StartResult.ok [Event.launchWorker]) ∧
    (¬ start c = StartResult.nullDeref ↔ ¬ c.mNativeContext = none) := by
  obtain ⟨slot⟩ := c
  cases slot with
  | none => exact ⟨fun _ => rfl, fun t ht => by simp at ht, by simp [start]⟩
  | some u => exact ⟨fun h => by simp at h, fun t _ => rfl, by simp [start]⟩

/-- C9 witness: `start` on a never-set-up controller hits the null
dereference. -/
theorem C9_witness : start Controller.fresh = StartResult.nullDeref :=
  (C9_start_unchecked Controller.fresh).1 rfl

/-- C10: only the worker releases the handle, and only in an iteration
where the open succeeded and the flag was observed set: an open-failure
iteration releases nothing and is terminal (returns `false`), a
completed iteration with the flag clear releases nothing, `start` and
`stop` never change the handle's allocation, and a failed-open worker
iteration leaves the whole state unchanged. -/
theorem C10_release_only_by_worker (t : MtpThread) (fd : Int) (s : Sys) :
    (fd < 0 → Event.releaseHandle ∉ (threadLoop t fd).trace ∧
       (threadLoop t fd).ret = false) ∧
    (0 ≤ fd →
       (Event.releaseHandle ∈ (threadLoop t fd).trace ↔ t.mDone = true)) ∧
    (stepOp s Op.start).handle = s.handle ∧
    ((stepOp s Op.stop).handle = none ↔ s.handle = none) ∧
    (fd < 0 → (stepOp s (Op.workerIter fd)).handle = s.handle) := by
  obtain ⟨v, hd⟩ := s
  refine ⟨?_, ?_, rfl, ?_, ?_⟩
  · intro h
    constructor <;> simp [threadLoop, h]
  · intro h
    have hfd : ¬ fd < 0 := not_lt.2 h
    by_cases hdone : t.mDone = true
    · simp [threadLoop, hfd, hdone]
    · simp [threadLoop, hfd, hdone]
  · cases v <;> cases hd <;> simp [stepOp]
  · intro h
    cases hd with
    | none => rfl
    | some u =>
        have hc : ¬ (0 ≤ fd ∧ u.mDone = true) := by
          intro hc
          exact absurd hc.1 (not_le.2 h)
        simp [stepOp, hc]

/-- C10 witness: a failed open (fd = -2) releases nothing and is
terminal. -/
theorem C10_witness :
    (-2 : Int) < 0 ∧
    (Event.releaseHandle ∉ (threadLoop (MtpThread.init 0 "p") (-2)).trace ∧
     (threadLoop (MtpThread.init 0 "p") (-2)).ret = false) :=
  ⟨by decide,
   (C10_release_only_by_worker (MtpThread.init 0 "p") (-2)
     (Sys.afterSetup 0 "p")).1 (by decide)⟩

end MtpServerJNI
